import Mathlib

/-
Verification of the bladeRF NIOS retune packet handler
(src/hdl/fpga/ip/altera/nios_system/software/bladeRF_nios/src/pkt_retune.c).

The C file implements:
  * a bounded FIFO ring buffer of pending retune requests (struct queue,
    enqueue_retune, dequeue_retune, peek_next_retune, pkt_retune_init);
  * a poll-driven scheduler step (pkt_retune_work) that advances the head
    entry through New -> Scheduled -> Ready and, on Ready, applies the
    retune to hardware and drops the entry;
  * a request dispatcher (pkt_retune) that either applies a retune
    immediately or enqueues it for later, and builds the response fields.

The shallow embedding below translates each C function into a pure Lean
function.  The global mutable queue becomes an explicit value of type
`queue` threaded through the operations.  Hardware primitives
(lms_set_precalculated_frequency, band_select, time_tamer_read) are
external collaborators; they are modelled as an oracle record `Hw`
supplied by the caller, so theorems quantify over every possible hardware
behaviour.  uint8_t index arithmetic `(i + 1) & (RETUNE_QUEUE_MAX - 1)`
is kept literally as a Nat bitmask.
-/

namespace PktRetune

/-- RETUNE_QUEUE_MAX from pkt_retune.c: capacity of the retune queue
(required to be a power of two). -/
def RETUNE_QUEUE_MAX : Nat := 32

/-- QUEUE_FULL from pkt_retune.c: distinguished return of enqueue_retune. -/
def QUEUE_FULL : Nat := 0xff

/-- QUEUE_EMPTY from pkt_retune.c: distinguished return of dequeue_retune. -/
def QUEUE_EMPTY : Nat := 0xfe

/-- Modelled from the spec: lms.h (not under src/) defines the flag set on a
frequency specification; the low-band selection flag is one bit of it. -/
def LMS_FREQ_FLAGS_LOW_BAND : Nat := 1

/-- Modelled from the spec: lms.h (not under src/) defines the
force-precomputed-capacitance ("quick tune") flag as a second bit. -/
def LMS_FREQ_FLAGS_FORCE_VCOCAP : Nat := 2

/-- Modelled from the spec: nios_pkt_retune.h (not under src/) reserves a
distinguished timestamp value meaning "apply immediately, bypass the queue". -/
def NIOS_PKT_RETUNE_NOW : Nat := 0

/-- Modelled from the spec: response success bit from nios_pkt_retune.h
(not under src/). -/
def NIOS_PKT_RETUNERESP_FLAG_SUCCESS : Nat := 1

/-- Modelled from the spec: response duration-valid bit from
nios_pkt_retune.h (not under src/). -/
def NIOS_PKT_RETUNERESP_FLAG_TSVTUNE_VALID : Nat := 2

/-- Modelled from the spec: libbladeRF's bladerf_module has exactly two
valid values, receive and transmit; we embed the enum into Nat. -/
def BLADERF_MODULE_RX : Nat := 0

/-- Modelled from the spec: the transmit module value. -/
def BLADERF_MODULE_TX : Nat := 1

/-- enum entry_state from pkt_retune.c. -/
inductive entry_state where
  | ENTRY_STATE_INVALID
  | ENTRY_STATE_NEW
  | ENTRY_STATE_SCHEDULED
  | ENTRY_STATE_READY
deriving DecidableEq

/-- struct lms_freq (declared in lms.h, used by pkt_retune.c): synthesizer
divider fields, a capacitance hint, a capacitance result slot and a flag
set.  All fields are machine integers, embedded as Nat. -/
structure lms_freq where
  nint : Nat
  nfrac : Nat
  freqsel : Nat
  vcocap : Nat
  vcocap_result : Nat
  flags : Nat
deriving DecidableEq

/-- struct queue_entry from pkt_retune.c. -/
structure queue_entry where
  state : entry_state
  module : Nat
  freq : lms_freq
deriving DecidableEq

/-- The all-zero queue_entry produced by memset(&q, 0, sizeof(q)):
ENTRY_STATE_INVALID is the enum value 0. -/
def zero_entry : queue_entry :=
  { state := entry_state.ENTRY_STATE_INVALID
    module := 0
    freq := { nint := 0, nfrac := 0, freqsel := 0, vcocap := 0,
              vcocap_result := 0, flags := 0 } }

/-- struct queue from pkt_retune.c: count of live items, insertion index,
removal index, and the backing array of RETUNE_QUEUE_MAX entries (embedded
as a list of length RETUNE_QUEUE_MAX). -/
structure queue where
  count : Nat
  ins_idx : Nat
  rem_idx : Nat
  entries : List queue_entry
deriving DecidableEq

/-- pkt_retune_init: memset(&q, 0, sizeof(q)). -/
def pkt_retune_init : queue :=
  { count := 0
    ins_idx := 0
    rem_idx := 0
    entries := List.replicate RETUNE_QUEUE_MAX zero_entry }

/-- enqueue_retune from pkt_retune.c.  Returns the queue size after the
enqueue, or QUEUE_FULL when the item could not be enqueued, together with
the updated queue state.  The three stores into the slot at ins_idx
(memcpy of the freq, then state := ENTRY_STATE_NEW, then module := m) are
embedded as a single List.set of the fully-built entry; the index advance
is the literal bitmask (ins_idx + 1) &&& (RETUNE_QUEUE_MAX - 1). -/
def enqueue_retune (f : lms_freq) (m : Nat) (q : queue) : Nat × queue :=
  if q.count ≥ RETUNE_QUEUE_MAX then
    (QUEUE_FULL, q)
  else
    let e : queue_entry :=
      { state := entry_state.ENTRY_STATE_NEW, module := m, freq := f }
    let q' : queue :=
      { q with
        entries := q.entries.set q.ins_idx e
        ins_idx := (q.ins_idx + 1) &&& (RETUNE_QUEUE_MAX - 1)
        count := q.count + 1 }
    (q'.count, q')

/-- dequeue_retune from pkt_retune.c.  Returns the number of items left
after the dequeue, or QUEUE_EMPTY if there was nothing to dequeue, plus
the updated queue and the caller-visible contents of the out structure.

The C source, for a non-NULL argument e, executes
  memcpy(&e, &q.entries[q.rem_idx], sizeof(e[0]));
whose destination operand is the address of the LOCAL POINTER VARIABLE e
itself, not the pointee *e (and whose size, sizeof(struct queue_entry),
overruns that pointer's storage).  The caller's out structure is therefore
never written by this call.  We model the caller-observable effect: `out`
holds the contents of the caller's structure before the call (none
standing for a NULL pointer), and the returned option holds them after the
call - unchanged on every path. -/
def dequeue_retune (q : queue) (out : Option queue_entry) :
    Nat × queue × Option queue_entry :=
  if q.count = 0 then
    (QUEUE_EMPTY, q, out)
  else
    let q' : queue :=
      { q with
        rem_idx := (q.rem_idx + 1) &&& (RETUNE_QUEUE_MAX - 1)
        count := q.count - 1 }
    (q'.count, q', out)

/-- peek_next_retune from pkt_retune.c: the entry at rem_idx, or none when
the queue is empty.  (In C an out-of-range rem_idx would index past the
array; well-formedness hypotheses keep rem_idx < RETUNE_QUEUE_MAX in the
theorems that read the slot.) -/
def peek_next_retune (q : queue) : Option queue_entry :=
  if q.count = 0 then none
  else some (q.entries.getD q.rem_idx zero_entry)

/-- The external hardware collaborators consumed by pkt_retune.c, as an
oracle record.

* lms_set models lms_set_precalculated_frequency(NULL, module, &f): it
  returns the status and the contents of the lms_freq structure after the
  call (the primitive may write a computed capacitance result through the
  pointer).
* band_select models band_select(NULL, module, low_band), returning its
  status.
* time_tamer_read models the hardware timestamp counter; its first
  argument counts the reads performed by the current invocation (the C
  code reads it at most twice), so the two reads may return different
  tick values. -/
structure Hw where
  lms_set : Nat → lms_freq → Int × lms_freq
  band_select : Nat → Bool → Int
  time_tamer_read : Nat → Nat → Nat

/-- pkt_retune_error_count is a plain counter (debug builds); the work
step threads it explicitly. -/
def pkt_retune_work (hw : Hw) (q : queue) (err : Nat) : queue × Nat :=
  match peek_next_retune q with
  | none => (q, err)
  | some e =>
    match e.state with
    | entry_state.ENTRY_STATE_NEW =>
        ({ q with
           entries := q.entries.set q.rem_idx
             { e with state := entry_state.ENTRY_STATE_SCHEDULED } },
         err)
    | entry_state.ENTRY_STATE_SCHEDULED => (q, err)
    | entry_state.ENTRY_STATE_READY =>
        let r := hw.lms_set e.module e.freq
        let q1 : queue :=
          { q with entries := q.entries.set q.rem_idx { e with freq := r.2 } }
        let err1 :=
          if r.1 ≠ 0 then
            err + 1
          else
            let low_band := (r.2.flags &&& LMS_FREQ_FLAGS_LOW_BAND) ≠ 0
            if hw.band_select e.module low_band ≠ 0 then err + 1 else err
        ((dequeue_retune q1 none).2.1, err1)
    | entry_state.ENTRY_STATE_INVALID => (q, err + 1)

/-- The decoded request fields handed to pkt_retune by
nios_pkt_retune_unpack (the wire codec itself is out of scope). -/
structure retune_request where
  module : Nat
  timestamp : Nat
  nint : Nat
  nfrac : Nat
  freqsel : Nat
  vcocap : Nat
  low_band : Bool
  quick_tune : Bool

/-- The fields pkt_retune hands to nios_pkt_retune_resp_pack. -/
structure retune_resp where
  duration : Nat
  vcocap_result : Nat
  flags : Nat
deriving DecidableEq

/-- The lms_freq structure pkt_retune builds from the decoded request
before choosing a path: vcocap_result is initialised to the 0xff
"unknown" sentinel and the flag set encodes low_band and quick_tune. -/
def req_freq (req : retune_request) : lms_freq :=
  { nint := req.nint
    nfrac := req.nfrac
    freqsel := req.freqsel
    vcocap := req.vcocap
    vcocap_result := 0xff
    flags :=
      (if req.low_band then LMS_FREQ_FLAGS_LOW_BAND else 0) |||
      (if req.quick_tune then LMS_FREQ_FLAGS_FORCE_VCOCAP else 0) }

/-- flags &= ~NIOS_PKT_RETUNERESP_FLAG_SUCCESS on the uint8_t flags. -/
def clear_success (fl : Nat) : Nat :=
  fl &&& (0xff ^^^ NIOS_PKT_RETUNERESP_FLAG_SUCCESS)

/-- uint64_t subtraction retune_end - retune_start. -/
def u64_sub (a b : Nat) : Nat :=
  (a % 2 ^ 64 + (2 ^ 64 - b % 2 ^ 64)) % 2 ^ 64

/-- pkt_retune from pkt_retune.c.  Takes the decoded request and the
queue state, returns the queue state after the call and the response
fields passed to nios_pkt_retune_resp_pack.  The C control flow (a status
variable and a goto out label that clears the SUCCESS flag when status is
nonzero, then packs duration, f.vcocap_result and flags) is embedded by
building the response at each exit with the status of that exit. -/
def pkt_retune (hw : Hw) (req : retune_request) (q : queue) :
    queue × retune_resp :=
  let flags := NIOS_PKT_RETUNERESP_FLAG_SUCCESS
  let f := req_freq req
  if req.timestamp = NIOS_PKT_RETUNE_NOW then
    if req.module = BLADERF_MODULE_RX ∨ req.module = BLADERF_MODULE_TX then
      let retune_start := hw.time_tamer_read 0 req.module
      let r := hw.lms_set req.module f
      let f1 := r.2
      if r.1 ≠ 0 then
        (q, { duration := 0, vcocap_result := f1.vcocap_result,
              flags := clear_success flags })
      else
        let flags := flags ||| NIOS_PKT_RETUNERESP_FLAG_TSVTUNE_VALID
        if hw.band_select req.module req.low_band ≠ 0 then
          (q, { duration := 0, vcocap_result := f1.vcocap_result,
                flags := clear_success flags })
        else
          let retune_end := hw.time_tamer_read 1 req.module
          (q, { duration := u64_sub retune_end retune_start,
                vcocap_result := f1.vcocap_result, flags := flags })
    else
      (q, { duration := 0, vcocap_result := f.vcocap_result,
            flags := clear_success flags })
  else
    let r := enqueue_retune f req.module q
    if r.1 = QUEUE_FULL then
      (r.2, { duration := 0, vcocap_result := f.vcocap_result,
              flags := clear_success flags })
    else
      (r.2, { duration := 0, vcocap_result := f.vcocap_result,
              flags := flags })

/-- A hardware oracle on which every primitive succeeds and tuning writes
vcocap_result := 7 into the specification. -/
def hw_ok : Hw :=
  { lms_set := fun _ f => (0, { f with vcocap_result := 7 })
    band_select := fun _ _ => 0
    time_tamer_read := fun _ _ => 0 }

/-- A hardware oracle on which the tuning primitive fails. -/
def hw_tune_fail : Hw :=
  { lms_set := fun _ f => (-1, f)
    band_select := fun _ _ => 0
    time_tamer_read := fun _ _ => 0 }

/-- A hardware oracle on which tuning succeeds (writing vcocap_result 9)
but band selection fails. -/
def hw_band_fail : Hw :=
  { lms_set := fun _ f => (0, { f with vcocap_result := 9 })
    band_select := fun _ _ => 1
    time_tamer_read := fun _ _ => 0 }

/-- A sample decoded request. -/
def req0 : retune_request :=
  { module := BLADERF_MODULE_RX, timestamp := 1000, nint := 55, nfrac := 60,
    freqsel := 3, vcocap := 20, low_band := true, quick_tune := false }

/-- A distinctive frequency specification used in concrete runs. -/
def f_demo : lms_freq :=
  { nint := 11, nfrac := 22, freqsel := 3, vcocap := 4,
    vcocap_result := 0xff, flags := 1 }

/-- A fully loaded well-formed queue (count = RETUNE_QUEUE_MAX). -/
def q_full : queue :=
  { count := RETUNE_QUEUE_MAX, ins_idx := 0, rem_idx := 0,
    entries := List.replicate RETUNE_QUEUE_MAX zero_entry }

/-- The queue after inserting the single entry f_demo (module RX) into
the freshly initialised queue. -/
def q_one : queue := (enqueue_retune f_demo BLADERF_MODULE_RX pkt_retune_init).2

/-- The queue after inserting the single entry f_demo (module TX) into
the freshly initialised queue. -/
def q_one_tx : queue := (enqueue_retune f_demo BLADERF_MODULE_TX pkt_retune_init).2

/-- The sample request rewritten for the immediate path. -/
def req_now : retune_request := { req0 with timestamp := NIOS_PKT_RETUNE_NOW }

/-- A sample deferred request carrying an invalid module value. -/
def req_badmod : retune_request := { req0 with module := 5 }

/-- A well-formed queue whose single (head) entry is READY. -/
def q_ready : queue :=
  { count := 1, ins_idx := 1, rem_idx := 0,
    entries := (List.replicate RETUNE_QUEUE_MAX zero_entry).set 0
      { state := entry_state.ENTRY_STATE_READY,
        module := BLADERF_MODULE_RX, freq := f_demo } }

/-- The head entry of q_ready. -/
def e_ready : queue_entry :=
  { state := entry_state.ENTRY_STATE_READY,
    module := BLADERF_MODULE_RX, freq := f_demo }

/-- Iterated enqueue of a list of (freq, module) requests; the Bool
records whether every single enqueue_retune call succeeded (returned a
size rather than QUEUE_FULL). -/
def enqueue_list : List (lms_freq × Nat) → queue → queue × Bool
  | [], q => (q, true)
  | (f, m) :: t, q =>
      let r := enqueue_retune f m q
      let rest := enqueue_list t r.2
      (rest.1, (r.1 != QUEUE_FULL) && rest.2)

/-- Iterated dequeue (with a NULL out argument, as the scheduler uses). -/
def dequeue_n : Nat → queue → queue
  | 0, q => q
  | n + 1, q => dequeue_n n (dequeue_retune q none).2.1

/-- The 32-request load used to instantiate the round trip. -/
def l32 : List (lms_freq × Nat) :=
  List.replicate RETUNE_QUEUE_MAX (f_demo, BLADERF_MODULE_RX)

/-- The x &&& 31 masking used by the queue is reduction mod 32. -/
theorem mask_eq_mod (x : Nat) :
    x &&& (RETUNE_QUEUE_MAX - 1) = x % RETUNE_QUEUE_MAX := by
  have h := Nat.and_pow_two_sub_one_eq_mod x 5
  simpa [RETUNE_QUEUE_MAX] using h

/-- Reading back the slot just written: List.getD after List.set at an
in-range index. -/
theorem getD_set_self {α : Type} (l : List α) (i : Nat) (x d : α)
    (h : i < l.length) : (l.set i x).getD i d = x := by
  rw [List.getD_eq_getElem?_getD, List.getElem?_set_self]
  · simp
  · simpa using h

/-- C3: for every queue state with count = RETUNE_QUEUE_MAX,
enqueue_retune returns QUEUE_FULL and leaves the whole queue state
(count, both indices, and every stored entry) unchanged. -/
theorem enqueue_full_frame (f : lms_freq) (m : Nat) (q : queue)
    (h : q.count = RETUNE_QUEUE_MAX) :
    enqueue_retune f m q = (QUEUE_FULL, q) := by
  simp [enqueue_retune, h]

theorem enqueue_full_frame_witness :
    q_full.count = RETUNE_QUEUE_MAX ∧
    enqueue_retune f_demo 0 q_full = (QUEUE_FULL, q_full) :=
  ⟨by decide, enqueue_full_frame f_demo 0 q_full (by decide)⟩

/-- C1: the round-trip property fails on the code.  After inserting the
entry f_demo into a fresh queue, the stored head entry is exactly the
inserted one (so FIFO order holds internally), but a dequeue with a
non-NULL out structure leaves the caller's structure with its previous
contents (here zero_entry): the inserted field values are never yielded
to the caller, because the C memcpy in dequeue_retune targets the local
pointer variable instead of the pointee. -/
theorem dequeue_never_yields_inserted_entry :
    peek_next_retune q_one =
      some { state := entry_state.ENTRY_STATE_NEW,
             module := BLADERF_MODULE_RX, freq := f_demo } ∧
    (dequeue_retune q_one (some zero_entry)).2.2 = some zero_entry ∧
    zero_entry.freq ≠ f_demo := by
  decide

/-- C2: on a non-empty queue, dequeue_retune does advance rem_idx,
decrement count and return the new count, but the caller's non-NULL out
structure is left unchanged (its prior contents zero_entry differ from
the stored head entry), because the C memcpy targets the local pointer
variable instead of the caller's structure. -/
theorem dequeue_out_structure_not_written :
    dequeue_retune q_one_tx (some zero_entry) =
      (0, { q_one_tx with rem_idx := 1, count := 0 }, some zero_entry) ∧
    q_one_tx.entries.getD q_one_tx.rem_idx zero_entry ≠ zero_entry := by
  decide

/-- C8: a request with the "apply now" timestamp and a valid module
returns the queue state completely unchanged (count, indices and stored
entries). -/
theorem pkt_retune_now_queue_frame (hw : Hw) (req : retune_request) (q : queue)
    (ht : req.timestamp = NIOS_PKT_RETUNE_NOW)
    (hm : req.module = BLADERF_MODULE_RX ∨ req.module = BLADERF_MODULE_TX) :
    (pkt_retune hw req q).1 = q := by
  by_cases h1 : (hw.lms_set req.module (req_freq req)).1 ≠ 0 <;>
    by_cases h2 : hw.band_select req.module req.low_band ≠ 0 <;>
      simp [pkt_retune, ht, hm, h1, h2]

theorem pkt_retune_now_queue_frame_witness :
    req_now.timestamp = NIOS_PKT_RETUNE_NOW ∧
    (req_now.module = BLADERF_MODULE_RX ∨ req_now.module = BLADERF_MODULE_TX) ∧
    (pkt_retune hw_ok req_now q_one).1 = q_one :=
  ⟨by decide, Or.inl (by decide),
   pkt_retune_now_queue_frame hw_ok req_now q_one (by decide) (Or.inl (by decide))⟩

/-- C5: a deferred request (timestamp differs from the "apply now"
sentinel) with a valid module: when count < RETUNE_QUEUE_MAX the request
increments count by exactly one and the response is marked successful
with duration 0; when count = RETUNE_QUEUE_MAX the response is marked
unsuccessful, also with duration 0. -/
theorem pkt_retune_deferred_count (hw : Hw) (req : retune_request) (q : queue)
    (ht : req.timestamp ≠ NIOS_PKT_RETUNE_NOW)
    (_hm : req.module = BLADERF_MODULE_RX ∨ req.module = BLADERF_MODULE_TX) :
    (q.count < RETUNE_QUEUE_MAX →
      (pkt_retune hw req q).1.count = q.count + 1 ∧
      (pkt_retune hw req q).2.flags &&& NIOS_PKT_RETUNERESP_FLAG_SUCCESS ≠ 0 ∧
      (pkt_retune hw req q).2.duration = 0) ∧
    (q.count = RETUNE_QUEUE_MAX →
      (pkt_retune hw req q).2.flags &&& NIOS_PKT_RETUNERESP_FLAG_SUCCESS = 0 ∧
      (pkt_retune hw req q).2.duration = 0) := by
  constructor
  · intro hc
    have hge : ¬ q.count ≥ RETUNE_QUEUE_MAX := by omega
    have hnf : q.count + 1 ≠ QUEUE_FULL := by
      simp only [QUEUE_FULL]
      simp only [RETUNE_QUEUE_MAX] at hc
      omega
    have hr : pkt_retune hw req q =
        ((enqueue_retune (req_freq req) req.module q).2,
         { duration := 0, vcocap_result := (req_freq req).vcocap_result,
           flags := NIOS_PKT_RETUNERESP_FLAG_SUCCESS }) := by
      simp [pkt_retune, ht, enqueue_retune, hge, hnf]
    rw [hr]
    refine ⟨?_,
      show NIOS_PKT_RETUNERESP_FLAG_SUCCESS &&& NIOS_PKT_RETUNERESP_FLAG_SUCCESS ≠ 0
        by decide, rfl⟩
    simp [enqueue_retune, hge]
  · intro hc
    have hge : q.count ≥ RETUNE_QUEUE_MAX := by omega
    have hr : pkt_retune hw req q =
        (q, { duration := 0, vcocap_result := (req_freq req).vcocap_result,
              flags := clear_success NIOS_PKT_RETUNERESP_FLAG_SUCCESS }) := by
      simp [pkt_retune, ht, enqueue_retune, hge]
    rw [hr]
    exact ⟨show clear_success NIOS_PKT_RETUNERESP_FLAG_SUCCESS &&&
        NIOS_PKT_RETUNERESP_FLAG_SUCCESS = 0 by decide, rfl⟩

theorem pkt_retune_deferred_count_witness :
    req0.timestamp ≠ NIOS_PKT_RETUNE_NOW ∧
    pkt_retune_init.count < RETUNE_QUEUE_MAX ∧
    (pkt_retune hw_ok req0 pkt_retune_init).1.count = pkt_retune_init.count + 1 ∧
    (pkt_retune hw_ok req0 pkt_retune_init).2.flags &&&
      NIOS_PKT_RETUNERESP_FLAG_SUCCESS ≠ 0 ∧
    (pkt_retune hw_ok req0 pkt_retune_init).2.duration = 0 :=
  ⟨by decide, by decide,
   (pkt_retune_deferred_count hw_ok req0 pkt_retune_init (by decide)
      (Or.inl (by decide))).1 (by decide)⟩

/-- C6: an immediate ("apply now") request with a valid module on which
the tuning primitive fails: the response has the success flag clear, the
duration-valid flag clear and duration 0. -/
theorem pkt_retune_now_tune_fail (hw : Hw) (req : retune_request) (q : queue)
    (ht : req.timestamp = NIOS_PKT_RETUNE_NOW)
    (hm : req.module = BLADERF_MODULE_RX ∨ req.module = BLADERF_MODULE_TX)
    (hf : (hw.lms_set req.module (req_freq req)).1 ≠ 0) :
    (pkt_retune hw req q).2.flags &&& NIOS_PKT_RETUNERESP_FLAG_SUCCESS = 0 ∧
    (pkt_retune hw req q).2.flags &&& NIOS_PKT_RETUNERESP_FLAG_TSVTUNE_VALID = 0 ∧
    (pkt_retune hw req q).2.duration = 0 := by
  have hr : pkt_retune hw req q =
      (q, { duration := 0,
            vcocap_result := (hw.lms_set req.module (req_freq req)).2.vcocap_result,
            flags := clear_success NIOS_PKT_RETUNERESP_FLAG_SUCCESS }) := by
    simp [pkt_retune, ht, hm, hf]
  rw [hr]
  exact ⟨show clear_success NIOS_PKT_RETUNERESP_FLAG_SUCCESS &&&
      NIOS_PKT_RETUNERESP_FLAG_SUCCESS = 0 by decide,
    show clear_success NIOS_PKT_RETUNERESP_FLAG_SUCCESS &&&
      NIOS_PKT_RETUNERESP_FLAG_TSVTUNE_VALID = 0 by decide, rfl⟩

theorem pkt_retune_now_tune_fail_witness :
    req_now.timestamp = NIOS_PKT_RETUNE_NOW ∧
    (hw_tune_fail.lms_set req_now.module (req_freq req_now)).1 ≠ 0 ∧
    (pkt_retune hw_tune_fail req_now q_one).2.flags &&&
      NIOS_PKT_RETUNERESP_FLAG_SUCCESS = 0 ∧
    (pkt_retune hw_tune_fail req_now q_one).2.flags &&&
      NIOS_PKT_RETUNERESP_FLAG_TSVTUNE_VALID = 0 ∧
    (pkt_retune hw_tune_fail req_now q_one).2.duration = 0 :=
  ⟨by decide, by decide,
   pkt_retune_now_tune_fail hw_tune_fail req_now q_one (by decide)
     (Or.inl (by decide)) (by decide)⟩

/-- C7: an immediate request with a valid module on which tuning
succeeds but band selection fails: the response has the success flag
clear, the duration-valid flag set, duration 0, and its capacitance
result field is exactly what the tuning primitive wrote into the
specification. -/
theorem pkt_retune_now_band_fail (hw : Hw) (req : retune_request) (q : queue)
    (ht : req.timestamp = NIOS_PKT_RETUNE_NOW)
    (hm : req.module = BLADERF_MODULE_RX ∨ req.module = BLADERF_MODULE_TX)
    (hok : (hw.lms_set req.module (req_freq req)).1 = 0)
    (hb : hw.band_select req.module req.low_band ≠ 0) :
    (pkt_retune hw req q).2.flags &&& NIOS_PKT_RETUNERESP_FLAG_SUCCESS = 0 ∧
    (pkt_retune hw req q).2.flags &&& NIOS_PKT_RETUNERESP_FLAG_TSVTUNE_VALID ≠ 0 ∧
    (pkt_retune hw req q).2.duration = 0 ∧
    (pkt_retune hw req q).2.vcocap_result =
      (hw.lms_set req.module (req_freq req)).2.vcocap_result := by
  have hr : pkt_retune hw req q =
      (q, { duration := 0,
            vcocap_result := (hw.lms_set req.module (req_freq req)).2.vcocap_result,
            flags := clear_success (NIOS_PKT_RETUNERESP_FLAG_SUCCESS |||
                       NIOS_PKT_RETUNERESP_FLAG_TSVTUNE_VALID) }) := by
    simp [pkt_retune, ht, hm, hok, hb]
  rw [hr]
  exact ⟨show clear_success (NIOS_PKT_RETUNERESP_FLAG_SUCCESS |||
      NIOS_PKT_RETUNERESP_FLAG_TSVTUNE_VALID) &&&
      NIOS_PKT_RETUNERESP_FLAG_SUCCESS = 0 by decide,
    show clear_success (NIOS_PKT_RETUNERESP_FLAG_SUCCESS |||
      NIOS_PKT_RETUNERESP_FLAG_TSVTUNE_VALID) &&&
      NIOS_PKT_RETUNERESP_FLAG_TSVTUNE_VALID ≠ 0 by decide, rfl, rfl⟩

theorem pkt_retune_now_band_fail_witness :
    (hw_band_fail.lms_set req_now.module (req_freq req_now)).1 = 0 ∧
    hw_band_fail.band_select req_now.module req_now.low_band ≠ 0 ∧
    (pkt_retune hw_band_fail req_now q_one).2.flags &&&
      NIOS_PKT_RETUNERESP_FLAG_SUCCESS = 0 ∧
    (pkt_retune hw_band_fail req_now q_one).2.flags &&&
      NIOS_PKT_RETUNERESP_FLAG_TSVTUNE_VALID ≠ 0 ∧
    (pkt_retune hw_band_fail req_now q_one).2.duration = 0 ∧
    (pkt_retune hw_band_fail req_now q_one).2.vcocap_result =
      (hw_band_fail.lms_set req_now.module (req_freq req_now)).2.vcocap_result :=
  ⟨by decide, by decide,
   pkt_retune_now_band_fail hw_band_fail req_now q_one (by decide)
     (Or.inl (by decide)) (by decide) (by decide)⟩

/-- C10: the deferred path never validates the module.  For any module
value whatsoever (valid or not), a request with a non-"apply now"
timestamp issued on a well-formed queue with count < RETUNE_QUEUE_MAX is
enqueued with that module stored verbatim in the new entry, and the
response is marked successful - whereas the immediate path marks any
request with an invalid module unsuccessful. -/
theorem pkt_retune_deferred_module_unchecked (hw : Hw) (req : retune_request)
    (q : queue) (ht : req.timestamp ≠ NIOS_PKT_RETUNE_NOW)
    (hc : q.count < RETUNE_QUEUE_MAX)
    (hl : q.entries.length = RETUNE_QUEUE_MAX)
    (hi : q.ins_idx < RETUNE_QUEUE_MAX) :
    (pkt_retune hw req q).1.count = q.count + 1 ∧
    (pkt_retune hw req q).1.entries.getD q.ins_idx zero_entry =
      { state := entry_state.ENTRY_STATE_NEW, module := req.module,
        freq := req_freq req } ∧
    (pkt_retune hw req q).2.flags &&& NIOS_PKT_RETUNERESP_FLAG_SUCCESS ≠ 0 ∧
    (∀ req2 : retune_request, req2.timestamp = NIOS_PKT_RETUNE_NOW →
      ¬(req2.module = BLADERF_MODULE_RX ∨ req2.module = BLADERF_MODULE_TX) →
      (pkt_retune hw req2 q).2.flags &&& NIOS_PKT_RETUNERESP_FLAG_SUCCESS = 0) := by
  have hge : ¬ q.count ≥ RETUNE_QUEUE_MAX := by omega
  have hnf : q.count + 1 ≠ QUEUE_FULL := by
    simp only [QUEUE_FULL]
    simp only [RETUNE_QUEUE_MAX] at hc
    omega
  have hr : pkt_retune hw req q =
      ({ q with
         entries := q.entries.set q.ins_idx
           { state := entry_state.ENTRY_STATE_NEW, module := req.module,
             freq := req_freq req }
         ins_idx := (q.ins_idx + 1) &&& (RETUNE_QUEUE_MAX - 1)
         count := q.count + 1 },
       { duration := 0, vcocap_result := (req_freq req).vcocap_result,
         flags := NIOS_PKT_RETUNERESP_FLAG_SUCCESS }) := by
    simp [pkt_retune, ht, enqueue_retune, hge, hnf]
  refine ⟨?_, ?_, ?_, ?_⟩
  · rw [hr]
  · rw [hr]
    exact getD_set_self q.entries q.ins_idx _ zero_entry (by rw [hl]; exact hi)
  · rw [hr]
    exact show NIOS_PKT_RETUNERESP_FLAG_SUCCESS &&&
      NIOS_PKT_RETUNERESP_FLAG_SUCCESS ≠ 0 by decide
  · intro req2 ht2 hm2
    have hr2 : pkt_retune hw req2 q =
        (q, { duration := 0, vcocap_result := (req_freq req2).vcocap_result,
              flags := clear_success NIOS_PKT_RETUNERESP_FLAG_SUCCESS }) := by
      simp [pkt_retune, ht2, hm2]
    rw [hr2]
    exact show clear_success NIOS_PKT_RETUNERESP_FLAG_SUCCESS &&&
      NIOS_PKT_RETUNERESP_FLAG_SUCCESS = 0 by decide

theorem pkt_retune_deferred_module_unchecked_witness :
    req_badmod.timestamp ≠ NIOS_PKT_RETUNE_NOW ∧
    pkt_retune_init.count < RETUNE_QUEUE_MAX ∧
    (pkt_retune hw_ok req_badmod pkt_retune_init).1.entries.getD
        pkt_retune_init.ins_idx zero_entry =
      { state := entry_state.ENTRY_STATE_NEW, module := req_badmod.module,
        freq := req_freq req_badmod } ∧
    (pkt_retune hw_ok req_badmod pkt_retune_init).2.flags &&&
      NIOS_PKT_RETUNERESP_FLAG_SUCCESS ≠ 0 :=
  ⟨by decide, by decide,
   (pkt_retune_deferred_module_unchecked hw_ok req_badmod pkt_retune_init
      (by decide) (by decide) (by decide) (by decide)).2.1,
   (pkt_retune_deferred_module_unchecked hw_ok req_badmod pkt_retune_init
      (by decide) (by decide) (by decide) (by decide)).2.2.1⟩

/-- C4: when the head entry's state is ENTRY_STATE_READY, the work step
attempts the hardware application (synthesizer programming; band
selection, from the stored low-band flag bit, only if programming
succeeded) and removes the head entry unconditionally - count drops by
one and rem_idx advances by one mod RETUNE_QUEUE_MAX whatever the two
statuses were - while a failure of either primitive is recorded solely
by incrementing the diagnostic error counter. -/
theorem pkt_retune_work_ready (hw : Hw) (q : queue) (err : Nat)
    (e : queue_entry) (hp : peek_next_retune q = some e)
    (hs : e.state = entry_state.ENTRY_STATE_READY) :
    (pkt_retune_work hw q err).1.count = q.count - 1 ∧
    (pkt_retune_work hw q err).1.rem_idx = (q.rem_idx + 1) % RETUNE_QUEUE_MAX ∧
    (pkt_retune_work hw q err).1.ins_idx = q.ins_idx ∧
    (pkt_retune_work hw q err).2 =
      (if (hw.lms_set e.module e.freq).1 ≠ 0 ∨
          hw.band_select e.module
            (((hw.lms_set e.module e.freq).2.flags &&&
               LMS_FREQ_FLAGS_LOW_BAND) ≠ 0) ≠ 0
       then err + 1 else err) := by
  have hc : q.count ≠ 0 := by
    intro h0
    simp [peek_next_retune, h0] at hp
  have hw1 : pkt_retune_work hw q err =
      ((dequeue_retune
          { q with entries :=
              q.entries.set q.rem_idx ({ e with freq := (hw.lms_set e.module e.freq).2 }) }
          none).2.1,
       if (hw.lms_set e.module e.freq).1 ≠ 0 then err + 1
       else if hw.band_select e.module
           (((hw.lms_set e.module e.freq).2.flags &&&
              LMS_FREQ_FLAGS_LOW_BAND) ≠ 0) ≠ 0 then err + 1
       else err) := by
    simp only [pkt_retune_work, hp, hs]
  rw [hw1]
  refine ⟨?_, ?_, ?_, ?_⟩
  · simp [dequeue_retune, hc]
  · simp [dequeue_retune, hc, mask_eq_mod]
  · simp [dequeue_retune, hc]
  · by_cases h1 : (hw.lms_set e.module e.freq).1 ≠ 0
    · simp [h1]
    · by_cases h2 : hw.band_select e.module
          (((hw.lms_set e.module e.freq).2.flags &&&
             LMS_FREQ_FLAGS_LOW_BAND) ≠ 0) ≠ 0
      · simp [h1, h2]
      · simp [h1, h2]

theorem pkt_retune_work_ready_witness :
    peek_next_retune q_ready = some e_ready ∧
    e_ready.state = entry_state.ENTRY_STATE_READY ∧
    (pkt_retune_work hw_tune_fail q_ready 5).1.count = q_ready.count - 1 ∧
    (pkt_retune_work hw_tune_fail q_ready 5).2 = 6 := by
  have h := pkt_retune_work_ready hw_tune_fail q_ready 5 e_ready
    (by decide) (by decide)
  refine ⟨by decide, by decide, h.1, ?_⟩
  rw [h.2.2.2]
  decide

theorem enqueue_list_spec : ∀ (l : List (lms_freq × Nat)) (q : queue),
    q.count + l.length ≤ RETUNE_QUEUE_MAX →
    (enqueue_list l q).2 = true ∧
    (enqueue_list l q).1.count = q.count + l.length ∧
    (enqueue_list l q).1.rem_idx = q.rem_idx ∧
    (l = [] → (enqueue_list l q).1.ins_idx = q.ins_idx) ∧
    (l ≠ [] → (enqueue_list l q).1.ins_idx =
      (q.ins_idx + l.length) % RETUNE_QUEUE_MAX) := by
  intro l
  induction l with
  | nil =>
      intro q _
      simp [enqueue_list]
  | cons p t ih =>
      intro q h
      have hge : ¬ q.count ≥ RETUNE_QUEUE_MAX := by
        simp only [List.length_cons] at h
        omega
      have hq' : enqueue_retune p.1 p.2 q =
          (q.count + 1,
           { q with
             entries := q.entries.set q.ins_idx
               { state := entry_state.ENTRY_STATE_NEW, module := p.2,
                 freq := p.1 }
             ins_idx := (q.ins_idx + 1) &&& (RETUNE_QUEUE_MAX - 1)
             count := q.count + 1 }) := by
        simp [enqueue_retune, hge]
      have hnf : ((q.count + 1 : Nat) != QUEUE_FULL) = true := by
        simp only [QUEUE_FULL, bne_iff_ne, ne_eq]
        simp only [RETUNE_QUEUE_MAX, List.length_cons] at h
        omega
      obtain ⟨f, m⟩ := p
      have hrec := ih
        { q with
          entries := q.entries.set q.ins_idx
            { state := entry_state.ENTRY_STATE_NEW, module := m, freq := f }
          ins_idx := (q.ins_idx + 1) &&& (RETUNE_QUEUE_MAX - 1)
          count := q.count + 1 }
        (by simp only [List.length_cons] at h; simpa using by omega)
      have hel : enqueue_list ((f, m) :: t) q =
          (((enqueue_list t
              { q with
                entries := q.entries.set q.ins_idx
                  { state := entry_state.ENTRY_STATE_NEW, module := m,
                    freq := f }
                ins_idx := (q.ins_idx + 1) &&& (RETUNE_QUEUE_MAX - 1)
                count := q.count + 1 }).1),
           (((q.count + 1 : Nat) != QUEUE_FULL) &&
             (enqueue_list t
              { q with
                entries := q.entries.set q.ins_idx
                  { state := entry_state.ENTRY_STATE_NEW, module := m,
                    freq := f }
                ins_idx := (q.ins_idx + 1) &&& (RETUNE_QUEUE_MAX - 1)
                count := q.count + 1 }).2)) := by
        simp only [enqueue_list]
        rw [hq' ]
      rw [hel]
      refine ⟨?_, ?_, ?_, ?_, ?_⟩
      · simp [hnf, hrec.1]
      · simp only [hrec.2.1]
        simp [List.length_cons]
        omega
      · simpa using hrec.2.2.1
      · intro hcontra
        exact absurd hcontra (by simp)
      · intro _
        rcases Decidable.em (t = []) with hte | htne
        · subst hte
          have h0 := hrec.2.2.2.1 rfl
          simp only [h0]
          simp [mask_eq_mod, List.length_cons]
        · have h0 := hrec.2.2.2.2 htne
          simp only [h0]
          rw [mask_eq_mod]
          simp only [List.length_cons]
          rw [Nat.mod_add_mod]
          ring_nf

theorem dequeue_n_spec : ∀ (n : Nat) (q : queue), n ≤ q.count →
    (dequeue_n n q).count = q.count - n ∧
    (dequeue_n n q).ins_idx = q.ins_idx ∧
    (dequeue_n n q).entries = q.entries ∧
    (n = 0 → (dequeue_n n q).rem_idx = q.rem_idx) ∧
    (n ≠ 0 → (dequeue_n n q).rem_idx =
      (q.rem_idx + n) % RETUNE_QUEUE_MAX) := by
  intro n
  induction n with
  | zero =>
      intro q _
      simp [dequeue_n]
  | succ k ih =>
      intro q h
      have hc : q.count ≠ 0 := by omega
      have hd : dequeue_retune q none =
          (q.count - 1,
           { q with rem_idx := (q.rem_idx + 1) &&& (RETUNE_QUEUE_MAX - 1)
                    count := q.count - 1 }, none) := by
        simp [dequeue_retune, hc]
      have hrec := ih
        { q with rem_idx := (q.rem_idx + 1) &&& (RETUNE_QUEUE_MAX - 1)
                 count := q.count - 1 }
        (by simpa using by omega)
      have hel : dequeue_n (k + 1) q =
          dequeue_n k
            { q with rem_idx := (q.rem_idx + 1) &&& (RETUNE_QUEUE_MAX - 1)
                     count := q.count - 1 } := by
        simp only [dequeue_n]
        rw [hd]
      rw [hel]
      refine ⟨?_, ?_, ?_, ?_, ?_⟩
      · simp only [hrec.1]
        omega
      · simpa using hrec.2.1
      · simpa using hrec.2.2.1
      · intro hcontra
        exact absurd hcontra (by simp)
      · intro _
        rcases Decidable.em (k = 0) with hk0 | hkne
        · subst hk0
          have h0 := hrec.2.2.2.1 rfl
          simp only [h0]
          simp [mask_eq_mod]
        · have h0 := hrec.2.2.2.2 hkne
          simp only [h0]
          rw [mask_eq_mod, Nat.mod_add_mod]
          ring_nf

/-- C9: starting from any queue state with count = 0, RETUNE_QUEUE_MAX
inserts (all of which succeed) followed by RETUNE_QUEUE_MAX removes
leave count = 0 with both indices equal, modulo wraparound of the
32-slot ring, to their starting values. -/
theorem queue_roundtrip (q : queue) (l : List (lms_freq × Nat))
    (hc : q.count = 0) (hl : l.length = RETUNE_QUEUE_MAX) :
    (enqueue_list l q).2 = true ∧
    (dequeue_n RETUNE_QUEUE_MAX (enqueue_list l q).1).count = 0 ∧
    (dequeue_n RETUNE_QUEUE_MAX (enqueue_list l q).1).ins_idx =
      q.ins_idx % RETUNE_QUEUE_MAX ∧
    (dequeue_n RETUNE_QUEUE_MAX (enqueue_list l q).1).rem_idx =
      q.rem_idx % RETUNE_QUEUE_MAX := by
  have hle : q.count + l.length ≤ RETUNE_QUEUE_MAX := by omega
  have he := enqueue_list_spec l q hle
  have hcount : (enqueue_list l q).1.count = RETUNE_QUEUE_MAX := by
    rw [he.2.1, hc, hl]
    simp
  have hne : l ≠ [] := by
    intro h0
    rw [h0] at hl
    simp [RETUNE_QUEUE_MAX] at hl
  have hd := dequeue_n_spec RETUNE_QUEUE_MAX (enqueue_list l q).1
    (by rw [hcount])
  refine ⟨he.1, ?_, ?_, ?_⟩
  · rw [hd.1, hcount]
    exact Nat.sub_self _
  · rw [hd.2.1, he.2.2.2.2 hne, hl]
    simp [Nat.add_mod_right]
  · have hr := hd.2.2.2.2 (by simp [RETUNE_QUEUE_MAX])
    rw [hr, he.2.2.1]
    simp [Nat.add_mod_right]

theorem queue_roundtrip_witness :
    pkt_retune_init.count = 0 ∧
    l32.length = RETUNE_QUEUE_MAX ∧
    (enqueue_list l32 pkt_retune_init).2 = true ∧
    (dequeue_n RETUNE_QUEUE_MAX (enqueue_list l32 pkt_retune_init).1).count = 0 ∧
    (dequeue_n RETUNE_QUEUE_MAX (enqueue_list l32 pkt_retune_init).1).ins_idx =
      pkt_retune_init.ins_idx % RETUNE_QUEUE_MAX ∧
    (dequeue_n RETUNE_QUEUE_MAX (enqueue_list l32 pkt_retune_init).1).rem_idx =
      pkt_retune_init.rem_idx % RETUNE_QUEUE_MAX :=
  ⟨by decide, by decide,
   queue_roundtrip pkt_retune_init l32 (by decide) (by decide)⟩

end PktRetune
